import Mathlib

/-
Verification of the question validation and parameter-normalization model of the
geotagx_project_template repository, embedded from src/question.py (class Question).
The code is Python 2 (it uses basestring); values flowing through the model are
JSON-like configuration data, embedded below as the inductive type Value. Python
dictionaries with string keys are embedded as association lists; the configuration
dictionaries this component consumes have pairwise distinct keys, and theorems that
depend on distinctness carry an explicit Nodup hypothesis.
-/

namespace GeotagX

/-- A Python value as it occurs in a questionnaire configuration entry: None, a
string, an integer, a boolean, a list, or a string-keyed dictionary. -/
inductive Value where
  | none : Value
  | str (s : String) : Value
  | int (n : Int) : Value
  | bool (b : Bool) : Value
  | list (xs : List Value) : Value
  | dict (xs : List (String × Value)) : Value

/-- Python `v is None` for an embedded value. -/
def Value.isNone : Value → Bool
  | Value.none => true
  | _ => false

/-- First-occurrence lookup in an association list, embedding Python dictionary
access `m[k]` / `m.get(k)` for dictionaries with distinct keys. -/
def alookup {α : Type} (k : String) (m : List (String × α)) : Option α :=
  (m.find? (fun e => e.fst == k)).map Prod.snd

/-- Python dictionary assignment `m[k] = v`: overwrite the value at an existing
key in place, otherwise append the new binding. -/
def setk (m : List (String × Value)) (k : String) (v : Value) : List (String × Value) :=
  if m.any (fun e => e.fst == k) then
    m.map (fun e => if e.fst == k then (k, v) else e)
  else
    m ++ [(k, v)]

/-- The characters stripped by Python `str.strip()` with no argument. -/
def pyspace (c : Char) : Bool :=
  c == ' ' || c == '\t' || c == '\n' || c == '\r' || c == '\x0b' || c == '\x0c'

/-- Python `s.strip()`: remove leading and trailing whitespace. -/
def pystrip (s : String) : String :=
  String.mk (((s.data.dropWhile pyspace).reverse.dropWhile pyspace).reverse)

/-- Python `"{}".format(v)` for the optional type string: None prints as "None". -/
def pyformat : Option String → String
  | some s => s
  | Option.none => "None"

/-- The exceptions the embedded code can raise: `raise Exception(message)` from
`Question.__init__`, the `KeyError` raised by `Question.__default_parameters[type]`
when the type is not a key of the table, and a `TypeError` for iterating a
non-dictionary parameters value. -/
inductive PyError where
  | exception (message : String) : PyError
  | keyError (key : Option String) : PyError
  | typeError (message : String) : PyError

/-- The class attribute `Question.__default_parameters` of src/question.py,
lines 23-72: the static table of per-type default parameters. Note that it has
no entry for the type "custom" even though `Question.istype` recognizes it. -/
def default_parameters : List (String × List (String × Value)) := [
  ("binary", []),
  ("dropdown-list", [("options", Value.none),
    ("prompt", Value.dict [("en", Value.str "Please select an option")]),
    ("size", Value.int 1)]),
  ("select", [("options", Value.none), ("size", Value.int 8)]),
  ("checklist", [("options", Value.none), ("size", Value.int 8)]),
  ("illustrative-checklist", [("options", Value.none)]),
  ("text", [("placeholder", Value.none), ("maxlength", Value.int 128)]),
  ("longtext", [("placeholder", Value.none), ("maxlength", Value.int 512)]),
  ("number", [("placeholder", Value.dict [("en", Value.str "Please enter a number")]),
    ("min", Value.none), ("max", Value.none), ("maxlength", Value.int 256)]),
  ("datetime", [("mindate", Value.none), ("maxdate", Value.none),
    ("mintime", Value.none), ("maxtime", Value.none)]),
  ("date", [("min", Value.none), ("max", Value.none)]),
  ("url", [("placeholder", Value.dict [("en", Value.str "Please enter a URL e.g. http://www.example.com")]),
    ("maxlength", Value.int 2000)]),
  ("geotagging", [("location", Value.none)])
]

/-- `Question.__default_parameters[type]` where the subscript is the question
type, an optional string (a missing or non-string raw type is Python None). -/
def tableLookup : Option String → Option (List (String × Value))
  | some t => alookup t default_parameters
  | Option.none => Option.none

/-- The update loop of `Question.getparameters` (src/question.py lines 242-244):
`for key in [k for k in defaults if defaults[k] is not None]: parameters[key] = defaults[key]`.
Entries of the user dictionary whose value is None are skipped; every other entry
overwrites or inserts its key. -/
def applyDefaultsList (base : List (String × Value)) (u : List (String × Value)) :
    List (String × Value) :=
  u.foldl (fun acc e => if e.snd.isNone then acc else setk acc e.fst e.snd) base

/-- `Question.getparameters(type, defaults)` (src/question.py lines 232-246).
`Question.__default_parameters[type].copy()` raises KeyError when the type is not
a key of the table; `.copy()` is a top-level (shallow) copy, which in this pure
value model is the identity — the heap model below captures the sharing it keeps.
A defaults value that is neither None nor a dictionary makes the update loop
raise a TypeError (for example, indexing a string with its own characters). -/
def getparameters (type : Option String) (defaults : Value) :
    Except PyError (List (String × Value)) :=
  match tableLookup type with
  | Option.none => Except.error (PyError.keyError type)
  | some base =>
    match defaults with
    | Value.none => Except.ok base
    | Value.dict u => Except.ok (applyDefaultsList base u)
    | _ => Except.error (PyError.typeError "question parameters are not iterable as a dictionary")

/-- `Question.isreservedkey(key)` (src/question.py lines 136-145). -/
def isreservedkey (key : String) : Bool :=
  ["end", "photoAccessible", "photoVisible"].contains key

/-- A character matched by the character class of the regular expression
`[\w-]` compiled by Python 2 `re` with default flags: ASCII letters, ASCII
digits, underscore, hyphen. -/
def iswordchar (c : Char) : Bool :=
  c.isAlphanum || c == '_' || c == '-'

/-- `re.match(r"[\w-]*", key).group()`: the longest prefix of the string made of
characters of the class `[\w-]`. The source compares this prefix with the whole
key; they differ exactly when the key contains a character outside the class. -/
def regexMatchGroup (s : String) : String :=
  String.mk (s.data.takeWhile iswordchar)

/-- `Question.iskey(key)` (src/question.py lines 112-133). The argument is an
arbitrary value because `Question.__init__` passes its key argument through
unvalidated; a non-string value fails the `isinstance(key, basestring)` test and
shares the message of the empty string. -/
def iskey (key : Value) : Bool × Option String :=
  match key with
  | Value.str s =>
    if s.length < 1 then
      (false, some "Error! A question key must be a non-empty string.")
    else if regexMatchGroup s != s then
      (false, some ("Error! The key \x27" ++ s ++ "\x27 contains an illegal character. A key may only contain letters (a-z, A-Z), numbers (0-9), hyphens (-), and underscores (_). It must not contain any whitespace."))
    else if isreservedkey s then
      (false, some ("Error! The string \x27" ++ s ++ "\x27 is reserved for internal use and can not be used as a question key."))
    else
      (true, Option.none)
  | _ => (false, some "Error! A question key must be a non-empty string.")

/-- The local list `types` of `Question.istype` (src/question.py lines 153-167). -/
def types : List String :=
  ["binary", "dropdown-list", "select", "checklist", "illustrative-checklist",
   "text", "longtext", "number", "datetime", "date", "url", "geotagging", "custom"]

/-- The local dictionary `deprecated` of `Question.istype` (src/question.py
lines 168-174), mapping each deprecated type alias to its replacement. -/
def deprecated : List (String × String) :=
  [("single_choice", "select"), ("multiple_choice", "checklist"),
   ("illustrated_multiple_choice", "illustrative-checklist"),
   ("textinput", "text"), ("textarea", "longtext")]

/-- Python `type in types` where the type is an optional string: the value None
is not a member of a list of strings. -/
def optMem (v : Option String) (l : List String) : Bool :=
  match v with
  | some t => l.contains t
  | Option.none => false

/-- Python `deprecated.get(type)` where the type is an optional string: looking
up None in a string-keyed dictionary finds nothing. -/
def optLookup (v : Option String) (m : List (String × String)) : Option String :=
  match v with
  | some t => alookup t m
  | Option.none => Option.none

/-- `Question.istype(type)` (src/question.py lines 148-181). -/
def istype (type : Option String) : Bool × Option String :=
  if !(optMem type types) then
    match optLookup type deprecated with
    | some replacement =>
      (false, some ("Error! The question type \x27" ++ pyformat type ++ "\x27 is deprecated and has been replaced with \x27" ++ replacement ++ "\x27."))
    | Option.none =>
      (false, some ("Error! The question type \x27" ++ pyformat type ++ "\x27 is not recognized."))
  else
    (true, Option.none)

/-- Modelled from the spec: the function `isi18nified` of src/i18n.py is imported
by src/question.py but src/i18n.py is not among the available source files.
Following section 4.3 of the specification: a value is i18nified if it is null
(vacuously valid, an absent field) or a mapping from language-code string to a
value that passes the item validator; any other shape is invalid with a
descriptive message, and a mapping fails with the message of its first failing
entry. -/
def isi18nified (value : Value) (itemValidator : Value → Bool × Option String) :
    Bool × Option String :=
  match value with
  | Value.none => (true, Option.none)
  | Value.dict entries =>
    match entries.find? (fun e => !(itemValidator e.snd).fst) with
    | some e => (false, (itemValidator e.snd).snd)
    | Option.none => (true, Option.none)
  | _ => (false, some "Error! The input must be an i18nified object, i.e. a dictionary mapping a language code to a value.")

/-- Modelled from the spec: the function `i18nify` of src/i18n.py is imported by
src/question.py but src/i18n.py is not among the available source files.
Following section 4.3 of the specification: it passes mappings through
unchanged, converts missing input (None) to None, and normalizes a bare
untagged string into the canonical mapping form. -/
def i18nify (value : Value) : Value :=
  match value with
  | Value.str s => Value.dict [("en", Value.str s)]
  | v => v

/-- The local function `isvalid` of `Question.isquestion` (src/question.py lines
194-205): a value is a valid question string when it is a string that is
non-empty after stripping whitespace. -/
def isvalidString (input : Value) : Bool × Option String :=
  match input with
  | Value.str s =>
    if (pystrip s).length == 0 then
      (false, some "Error! The string must not be empty!")
    else
      (true, Option.none)
  | _ => (false, some "Error! The input must be a StringType or UnicodeType.")

/-- `Question.isquestion(question)` (src/question.py lines 184-207). -/
def isquestion (question : Value) : Bool × Option String :=
  isi18nified question isvalidString

/-- `Question.ishint(hint)` (src/question.py lines 210-218). -/
def ishint (hint : Value) : Bool × Option String :=
  match hint with
  | Value.none => (true, Option.none)
  | h => isquestion h

/-- `Question.isparameters(parameters)` (src/question.py lines 221-229). -/
def isparameters (parameters : Value) : Bool × Option String :=
  match parameters with
  | Value.none => (true, Option.none)
  | Value.dict _ => (true, Option.none)
  | _ => (false, some "Error! Question parameters must be a dictionary.")

/-- The fields of a constructed Question object (src/question.py lines 16-22,
assigned in `Question.__init__`). The type field holds the stripped type string,
or None when the raw type is missing or not a string; the parameters field holds
the dictionary computed by `Question.getparameters`. -/
structure Question where
  key : Value
  type : Option String
  question : Value
  hint : Value
  parameters : List (String × Value)

/-- The validator-to-value mapping built by `Question.isvalid` (src/question.py
lines 97-103), in the textual order of the source literal. The source stores it
in a Python dictionary keyed by function objects, whose iteration order in
CPython 2 is the hash order of those objects — implementation-defined, not the
textual order; theorems below therefore avoid depending on this order. -/
def validations (q : Question) : List (Bool × Option String) :=
  [iskey q.key, istype q.type, isquestion q.question, ishint q.hint,
   isparameters (Value.dict q.parameters)]

/-- `Question.isvalid(question)` (src/question.py lines 92-109): return the
result of the first validator that fails, in iteration order, else (True, None). -/
def isvalid (q : Question) : Bool × Option String :=
  match (validations q).find? (fun r => !r.fst) with
  | some r => r
  | Option.none => (true, Option.none)

/-- Python `entry.get(k)` on a configuration entry: the value at the key, or
None when the key is absent. -/
def rawfield (k : String) (entry : List (String × Value)) : Value :=
  (alookup k entry).getD Value.none

/-- The type extraction of `Question.__init__` (src/question.py lines 82-83):
`self.type = entry.get("type")` then `self.type = self.type.strip() if isinstance(self.type, basestring) else None`. -/
def entryType (entry : List (String × Value)) : Option String :=
  match rawfield "type" entry with
  | Value.str s => some (pystrip s)
  | _ => Option.none

/-- The Question record assembled by `Question.__init__` before validation,
given the parameters dictionary computed by `Question.getparameters`. -/
def mkQuestion (key : Value) (entry : List (String × Value))
    (ps : List (String × Value)) : Question :=
  { key := key, type := entryType entry,
    question := i18nify (rawfield "question" entry),
    hint := i18nify (rawfield "hint" entry),
    parameters := ps }

/-- `Question.__init__(key, entry)` (src/question.py lines 75-89). The call
`Question.getparameters(self.type, entry.get("parameters"))` runs before
`Question.isvalid`, so any exception it raises (in particular the KeyError for a
type that is not a key of the default table) escapes before any validator runs.
On a validation failure the source raises `Exception(message)`; every failing
validator supplies a message, so the None default of getD is never used. -/
def construct (key : Value) (entry : List (String × Value)) : Except PyError Question :=
  match getparameters (entryType entry) (rawfield "parameters" entry) with
  | Except.error err => Except.error err
  | Except.ok ps =>
    match isvalid (mkQuestion key entry ps) with
    | (true, _) => Except.ok (mkQuestion key entry ps)
    | (false, message) => Except.error (PyError.exception (message.getD ""))

/-
Heap model. The pure value model above cannot express object identity, but claim
C4 is about aliasing: `Question.__default_parameters[type].copy()` is a Python
top-level (shallow) dictionary copy, so the nested default dictionaries (the
prompt of "dropdown-list", the placeholders of "number" and "url") stay shared
between the static table and every returned mapping. The model below embeds the
same table with explicit references and CPython object semantics: dictionaries
are heap cells, nested dictionaries are refs, `.copy()` allocates a fresh cell
holding the same entry list (refs included), and mutation updates one cell. -/

/-- The address of a heap-allocated Python dictionary. -/
abbrev Addr := Nat

/-- A value stored in a dictionary entry of the heap model: None, a string, an
integer, or a reference to another heap-allocated dictionary. -/
inductive HVal where
  | none : HVal
  | str (s : String) : HVal
  | int (n : Int) : HVal
  | ref (a : Addr) : HVal
deriving DecidableEq

/-- The entry list of one heap-allocated dictionary. -/
abbrev HDict := List (String × HVal)

/-- A heap: the allocated dictionaries, addressed by their cell. -/
abbrev Heap := List (Addr × HDict)

/-- Read the dictionary allocated at an address. -/
def heapGet (h : Heap) (a : Addr) : Option HDict :=
  (h.find? (fun c => c.fst == a)).map Prod.snd

/-- Replace the dictionary allocated at an address. -/
def heapSet (h : Heap) (a : Addr) (d : HDict) : Heap :=
  h.map (fun c => if c.fst == a then (a, d) else c)

/-- Python `d[k]` on one heap dictionary. -/
def dictGet (d : HDict) (k : String) : Option HVal :=
  (d.find? (fun e => e.fst == k)).map Prod.snd

/-- Python `d[k] = v` on one heap dictionary: overwrite in place or append. -/
def dictSet (d : HDict) (k : String) (v : HVal) : HDict :=
  if d.any (fun e => e.fst == k) then
    d.map (fun e => if e.fst == k then (k, v) else e)
  else
    d ++ [(k, v)]

/-- An address unused by the heap: one past the largest allocated address. -/
def freshAddr (h : Heap) : Addr :=
  (h.map Prod.fst).foldl max 0 + 1

/-- The address of the static table `Question.__default_parameters` itself. -/
def defaultTableAddr : Addr := 0

/-- The entry list of the default-parameter dictionary of "dropdown-list"
(src/question.py lines 25-29); its prompt entry is a reference to the nested
dictionary allocated at address 1. -/
def ddlDefaults : HDict :=
  [("options", HVal.none), ("prompt", HVal.ref 1), ("size", HVal.int 1)]

/-- The heap holding `Question.__default_parameters` (src/question.py lines
23-72) with explicit object identity: cell 0 is the table, cells 1-3 are the
three nested i18n dictionaries (the dropdown-list prompt and the number and url
placeholders), cells 4-15 are the twelve per-type dictionaries. -/
def initHeap : Heap := [
  (0, [("binary", HVal.ref 4), ("dropdown-list", HVal.ref 5), ("select", HVal.ref 6),
       ("checklist", HVal.ref 7), ("illustrative-checklist", HVal.ref 8),
       ("text", HVal.ref 9), ("longtext", HVal.ref 10), ("number", HVal.ref 11),
       ("datetime", HVal.ref 12), ("date", HVal.ref 13), ("url", HVal.ref 14),
       ("geotagging", HVal.ref 15)]),
  (1, [("en", HVal.str "Please select an option")]),
  (2, [("en", HVal.str "Please enter a number")]),
  (3, [("en", HVal.str "Please enter a URL e.g. http://www.example.com")]),
  (4, []),
  (5, ddlDefaults),
  (6, [("options", HVal.none), ("size", HVal.int 8)]),
  (7, [("options", HVal.none), ("size", HVal.int 8)]),
  (8, [("options", HVal.none)]),
  (9, [("placeholder", HVal.none), ("maxlength", HVal.int 128)]),
  (10, [("placeholder", HVal.none), ("maxlength", HVal.int 512)]),
  (11, [("placeholder", HVal.ref 2), ("min", HVal.none), ("max", HVal.none),
        ("maxlength", HVal.int 256)]),
  (12, [("mindate", HVal.none), ("maxdate", HVal.none), ("mintime", HVal.none),
        ("maxtime", HVal.none)]),
  (13, [("min", HVal.none), ("max", HVal.none)]),
  (14, [("placeholder", HVal.ref 3), ("maxlength", HVal.int 2000)]),
  (15, [("location", HVal.none)])
]

/-- `Question.getparameters(type, None)` in the heap model (src/question.py line
239): `Question.__default_parameters[type].copy()` reads the table cell, follows
the reference to the per-type dictionary, and allocates a fresh cell holding the
same entry list — references to nested dictionaries included, since `.copy()` is
a top-level copy. Returns the address of the fresh dictionary and the new heap. -/
def hgetparameters (h : Heap) (type : String) : Option (Addr × Heap) :=
  match heapGet h defaultTableAddr with
  | Option.none => Option.none
  | some table =>
    match dictGet table type with
    | some (HVal.ref a) =>
      match heapGet h a with
      | some d => some (freshAddr h, h ++ [(freshAddr h, d)])
      | Option.none => Option.none
    | _ => Option.none

/-- Python `obj[k] = v` where obj is the dictionary at the given address:
a top-level mutation of one heap dictionary. -/
def hsetTop (h : Heap) (a : Addr) (k : String) (v : HVal) : Heap :=
  match heapGet h a with
  | some d => heapSet h a (dictSet d k v)
  | Option.none => h

/-- Python `obj[k1][k2] = v` where obj is the dictionary at the given address and
its entry at k1 is a reference to another dictionary: a nested mutation, visible
through every alias of the inner dictionary. -/
def hsetNested (h : Heap) (a : Addr) (k1 k2 : String) (v : HVal) : Option Heap :=
  match heapGet h a with
  | some d =>
    match dictGet d k1 with
    | some (HVal.ref b) =>
      match heapGet h b with
      | some inner => some (heapSet h b (dictSet inner k2 v))
      | Option.none => Option.none
    | _ => Option.none
  | Option.none => Option.none

/-- Read Python `obj[k1][k2]` through one reference. -/
def hread2 (h : Heap) (a : Addr) (k1 k2 : String) : Option HVal :=
  match heapGet h a with
  | some d =>
    match dictGet d k1 with
    | some (HVal.ref b) =>
      match heapGet h b with
      | some inner => dictGet inner k2
      | Option.none => Option.none
    | _ => Option.none
  | Option.none => Option.none

/-- Read Python `obj[k1][k2][k3]` through two references. -/
def hread3 (h : Heap) (a : Addr) (k1 k2 k3 : String) : Option HVal :=
  match heapGet h a with
  | some d =>
    match dictGet d k1 with
    | some (HVal.ref b) => hread2 h b k2 k3
    | _ => Option.none
  | Option.none => Option.none

/-- The experiment of claim C4, run in the heap model: call
`Question.getparameters("dropdown-list", None)` twice, then through the first
returned mapping mutate the nested default prompt
(`result1["prompt"]["en"] = "CHANGED"`). Returns the final heap and the address
of the second returned mapping. -/
def c4final : Option (Heap × Addr) :=
  (hgetparameters initHeap "dropdown-list").bind (fun p1 =>
    (hgetparameters p1.snd "dropdown-list").bind (fun p2 =>
      (hsetNested p2.snd p1.fst "prompt" "en" (HVal.str "CHANGED")).map (fun h3 =>
        (h3, p2.fst))))

/-- The concrete heap after the first `getparameters("dropdown-list", None)` call
on the initial heap: the fresh cell 16 holds a top-level copy of the entry list
of cell 5, its prompt reference included. -/
def c4h1 : Heap := initHeap ++ [(16, ddlDefaults)]

/-- The concrete heap after the second `getparameters("dropdown-list", None)`
call: the fresh cell 17 holds another top-level copy of the same entry list. -/
def c4h2 : Heap := c4h1 ++ [(17, ddlDefaults)]

/-
Helper lemmas about association-list lookup, the dictionary update of setk, the
update loop of getparameters, and the heap model.
-/

theorem find_unique {α : Type} (p : α → Bool) :
    ∀ (l : List α) (a : α), a ∈ l → p a = true →
      (∀ x ∈ l, p x = true → x = a) → l.find? p = some a := by
  intro l
  induction l with
  | nil =>
    intro a ha _ _
    exact absurd ha (List.not_mem_nil a)
  | cons b t ih =>
    intro a ha hpa huniq
    by_cases hpb : p b = true
    · have hba : b = a := huniq b (List.mem_cons_self b t) hpb
      rw [List.find?_cons_of_pos t hpb, hba]
    · have hat : a ∈ t := by
        rcases List.mem_cons.mp ha with h | h
        · exact absurd hpa (h ▸ hpb)
        · exact h
      rw [List.find?_cons_of_neg t hpb]
      exact ih a hat hpa (fun x hx hpx => huniq x (List.mem_cons_of_mem b hx) hpx)

theorem alookup_cons {α : Type} (k : String) (e : String × α) (t : List (String × α)) :
    alookup k (e :: t) = if e.fst == k then some e.snd else alookup k t := by
  unfold alookup
  by_cases h : (e.fst == k) = true
  · rw [List.find?_cons_of_pos (p := fun x => x.fst == k) t h, if_pos h]
    rfl
  · rw [List.find?_cons_of_neg (p := fun x => x.fst == k) t h, if_neg h]

theorem alookup_append {α : Type} (k : String) (l1 l2 : List (String × α)) :
    alookup k (l1 ++ l2) = (alookup k l1).or (alookup k l2) := by
  unfold alookup
  rw [List.find?_append]
  cases l1.find? (fun e => e.fst == k) with
  | none => rfl
  | some e => rfl

theorem alookup_map_setk_self :
    ∀ (m : List (String × Value)) (k : String) (v : Value),
      m.any (fun e => e.fst == k) = true →
      alookup k (m.map (fun e => if e.fst == k then (k, v) else e)) = some v := by
  intro m k v
  induction m with
  | nil =>
    intro h
    simp at h
  | cons e t ih =>
    intro hany
    rw [List.map_cons]
    by_cases he : (e.fst == k) = true
    · rw [if_pos he, alookup_cons]
      simp
    · rw [if_neg he, alookup_cons, if_neg he]
      apply ih
      rw [List.any_cons] at hany
      rcases Bool.or_eq_true_iff.mp hany with h | h
      · exact absurd h he
      · exact h

theorem alookup_map_setk_ne :
    ∀ (m : List (String × Value)) (j k : String) (v : Value), j ≠ k →
      alookup j (m.map (fun e => if e.fst == k then (k, v) else e)) = alookup j m := by
  intro m j k v hjk
  induction m with
  | nil => rfl
  | cons e t ih =>
    rw [List.map_cons, alookup_cons (t := t)]
    by_cases he : (e.fst == k) = true
    · rw [if_pos he, alookup_cons]
      have h1 : ¬ (((k, v) : String × Value).fst == j) = true := by
        intro hh
        exact hjk (beq_iff_eq.mp hh).symm
      have h2 : ¬ (e.fst == j) = true := by
        intro hh
        exact hjk ((beq_iff_eq.mp hh).symm.trans (beq_iff_eq.mp he))
      rw [if_neg h1, if_neg h2]
      exact ih
    · rw [if_neg he, alookup_cons]
      by_cases hej : (e.fst == j) = true
      · rw [if_pos hej, if_pos hej]
      · rw [if_neg hej, if_neg hej]
        exact ih

theorem alookup_setk_self (m : List (String × Value)) (k : String) (v : Value) :
    alookup k (setk m k v) = some v := by
  unfold setk
  by_cases hany : (m.any (fun e => e.fst == k)) = true
  · rw [if_pos hany]
    exact alookup_map_setk_self m k v hany
  · rw [if_neg hany, alookup_append]
    have h1 : alookup k m = Option.none := by
      unfold alookup
      rw [List.find?_eq_none.mpr]
      · rfl
      · intro x hx hpx
        exact hany (List.any_eq_true.mpr ⟨x, hx, hpx⟩)
    rw [h1]
    show alookup k [(k, v)] = some v
    rw [alookup_cons]
    simp

theorem alookup_setk_ne (m : List (String × Value)) (j k : String) (v : Value)
    (hjk : j ≠ k) : alookup j (setk m k v) = alookup j m := by
  unfold setk
  by_cases hany : (m.any (fun e => e.fst == k)) = true
  · rw [if_pos hany]
    exact alookup_map_setk_ne m j k v hjk
  · rw [if_neg hany, alookup_append]
    have h1 : alookup j [(k, v)] = Option.none := by
      rw [alookup_cons]
      rw [if_neg (fun hh => hjk (beq_iff_eq.mp hh).symm)]
      rfl
    rw [h1]
    cases alookup j m with
    | none => rfl
    | some x => rfl

theorem applyDefaults_cons (base : List (String × Value)) (e : String × Value)
    (t : List (String × Value)) :
    applyDefaultsList base (e :: t) =
      applyDefaultsList (if e.snd.isNone then base else setk base e.fst e.snd) t := by
  unfold applyDefaultsList
  rw [List.foldl_cons]

theorem alookup_applyDefaults_not_mem :
    ∀ (u base : List (String × Value)) (k : String), k ∉ u.map Prod.fst →
      alookup k (applyDefaultsList base u) = alookup k base := by
  intro u
  induction u with
  | nil =>
    intro base k _
    rfl
  | cons e t ih =>
    intro base k hk
    have hk1 : k ≠ e.fst := fun h => hk (by rw [List.map_cons]; exact h ▸ List.mem_cons_self _ _)
    have hk2 : k ∉ t.map Prod.fst := fun h => hk (by rw [List.map_cons]; exact List.mem_cons_of_mem _ h)
    rw [applyDefaults_cons, ih _ k hk2]
    by_cases hn : e.snd.isNone = true
    · rw [if_pos hn]
    · rw [if_neg hn, alookup_setk_ne _ _ _ _ hk1]

theorem alookup_applyDefaults_mem :
    ∀ (u base : List (String × Value)) (pk : String) (pv : Value),
      (u.map Prod.fst).Nodup → (pk, pv) ∈ u → pv.isNone = false →
      alookup pk (applyDefaultsList base u) = some pv := by
  intro u
  induction u with
  | nil =>
    intro base pk pv _ hmem _
    exact absurd hmem (List.not_mem_nil _)
  | cons e t ih =>
    intro base pk pv hnd hmem hpv
    rw [List.map_cons, List.nodup_cons] at hnd
    rw [applyDefaults_cons]
    rcases List.mem_cons.mp hmem with heq | hmem2
    · have hfst : e.fst = pk := by rw [← heq]
      have hsnd : e.snd = pv := by rw [← heq]
      have hnn : ¬ (e.snd.isNone = true) := by
        rw [hsnd, hpv]
        exact Bool.false_ne_true
      rw [if_neg hnn, hfst, hsnd]
      have hnotin : pk ∉ t.map Prod.fst := by
        rw [← hfst]
        exact hnd.1
      rw [alookup_applyDefaults_not_mem t _ pk hnotin]
      exact alookup_setk_self base pk pv
    · exact ih _ pk pv hnd.2 hmem2 hpv

theorem applyDefaults_all_none :
    ∀ (u base : List (String × Value)), (∀ p ∈ u, p.snd.isNone = true) →
      applyDefaultsList base u = base := by
  intro u
  induction u with
  | nil =>
    intro base _
    rfl
  | cons e t ih =>
    intro base h
    rw [applyDefaults_cons, if_pos (h e (List.mem_cons_self e t))]
    exact ih base (fun p hp => h p (List.mem_cons_of_mem e hp))

theorem heapGet_cons (c : Addr × HDict) (t : Heap) (b : Addr) :
    heapGet (c :: t) b = if c.fst == b then some c.snd else heapGet t b := by
  unfold heapGet
  by_cases h : (c.fst == b) = true
  · rw [List.find?_cons_of_pos (p := fun x => x.fst == b) t h, if_pos h]
    rfl
  · rw [List.find?_cons_of_neg (p := fun x => x.fst == b) t h, if_neg h]

theorem heapGet_append_left (h h2 : Heap) (b : Addr) (d : HDict)
    (hb : heapGet h b = some d) : heapGet (h ++ h2) b = some d := by
  unfold heapGet at hb ⊢
  rw [List.find?_append]
  cases hf : h.find? (fun c => c.fst == b) with
  | none =>
    rw [hf] at hb
    exact absurd hb (by simp)
  | some c =>
    rw [hf] at hb
    exact hb

theorem heapGet_exists_of_mem :
    ∀ (h : Heap) (b : Addr), b ∈ h.map Prod.fst → ∃ d, heapGet h b = some d := by
  intro h
  induction h with
  | nil =>
    intro b hb
    exact absurd hb (List.not_mem_nil b)
  | cons c t ih =>
    intro b hb
    rw [List.map_cons] at hb
    rw [heapGet_cons]
    by_cases hc : (c.fst == b) = true
    · exact ⟨c.snd, by rw [if_pos hc]⟩
    · rcases List.mem_cons.mp hb with h1 | h1
      · exact absurd (beq_iff_eq.mpr h1.symm) hc
      · rcases ih b h1 with ⟨d, hd⟩
        exact ⟨d, by rw [if_neg hc]; exact hd⟩

theorem heapGet_heapSet_ne :
    ∀ (h : Heap) (a b : Addr) (d : HDict), b ≠ a →
      heapGet (heapSet h a d) b = heapGet h b := by
  intro h a b d hab
  induction h with
  | nil => rfl
  | cons c t ih =>
    show heapGet ((if c.fst == a then (a, d) else c) :: heapSet t a d) b = heapGet (c :: t) b
    by_cases hc : (c.fst == a) = true
    · rw [if_pos hc, heapGet_cons, heapGet_cons]
      have h1 : ¬ (((a, d) : Addr × HDict).fst == b) = true := by
        intro hh
        exact hab (beq_iff_eq.mp hh).symm
      have h2 : ¬ (c.fst == b) = true := by
        intro hh
        exact hab ((beq_iff_eq.mp hh).symm.trans (beq_iff_eq.mp hc))
      rw [if_neg h1, if_neg h2]
      exact ih
    · rw [if_neg hc, heapGet_cons, heapGet_cons]
      by_cases hcb : (c.fst == b) = true
      · rw [if_pos hcb, if_pos hcb]
      · rw [if_neg hcb, if_neg hcb]
        exact ih

theorem foldl_max_le (l : List Nat) : ∀ acc : Nat, acc ≤ l.foldl max acc := by
  induction l with
  | nil =>
    intro acc
    exact Nat.le_refl acc
  | cons x t ih =>
    intro acc
    rw [List.foldl_cons]
    exact Nat.le_trans (Nat.le_max_left acc x) (ih (max acc x))

theorem mem_le_foldl_max (l : List Nat) :
    ∀ (a : Nat), a ∈ l → ∀ acc, a ≤ l.foldl max acc := by
  induction l with
  | nil =>
    intro a ha
    exact absurd ha (List.not_mem_nil a)
  | cons x t ih =>
    intro a ha acc
    rw [List.foldl_cons]
    rcases List.mem_cons.mp ha with rfl | h
    · exact Nat.le_trans (Nat.le_max_right acc a) (foldl_max_le t (max acc a))
    · exact ih a h (max acc x)

theorem mem_lt_freshAddr (h : Heap) (a : Addr) (ha : a ∈ h.map Prod.fst) :
    a < freshAddr h := by
  unfold freshAddr
  exact Nat.lt_succ_of_le (mem_le_foldl_max _ a ha 0)

theorem hgetparameters_spec (h : Heap) (t : String) (r : Addr) (h1 : Heap)
    (hc : hgetparameters h t = some (r, h1)) :
    r = freshAddr h ∧ ∃ d, h1 = h ++ [(r, d)] := by
  unfold hgetparameters at hc
  split at hc
  · exact absurd hc (by simp)
  · split at hc
    · split at hc
      · rename_i d heq
        have hc2 : (freshAddr h, h ++ [(freshAddr h, d)]) = (r, h1) := by
          injection hc
        have hr : freshAddr h = r := congrArg Prod.fst hc2
        have hh : h ++ [(freshAddr h, d)] = h1 := congrArg Prod.snd hc2
        subst hr
        exact ⟨rfl, ⟨d, hh.symm⟩⟩
      · exact absurd hc (by simp)
    · exact absurd hc (by simp)

theorem string_length_lt_one_iff (s : String) : s.length < 1 ↔ s = "" := by
  rw [Nat.lt_one_iff]
  constructor
  · intro h
    apply String.ext
    have h2 : s.data.length = 0 := h
    exact List.length_eq_zero.mp h2
  · intro h
    subst h
    rfl

theorem regexMatchGroup_eq_self_iff (s : String) :
    regexMatchGroup s = s ↔ s.data.all iswordchar = true := by
  unfold regexMatchGroup
  constructor
  · intro h
    have hd : s.data.takeWhile iswordchar = s.data := congrArg String.data h
    rw [List.all_eq_true]
    exact List.takeWhile_eq_self_iff.mp hd
  · intro h
    apply String.ext
    show s.data.takeWhile iswordchar = s.data
    exact List.takeWhile_eq_self_iff.mpr (List.all_eq_true.mp h)

/-
Claim theorems.
-/

/-- Claim C1 (code_bug evidence). The type validator does produce the
deprecation message naming "select" for the deprecated alias "single_choice",
but constructing a Question with that type does not fail with it: the call
`Question.getparameters(self.type, ...)` on line 86 of src/question.py runs
before validation and raises KeyError("single_choice") at
`Question.__default_parameters[type]`, masking the type error. The same masking
KeyError occurs for any other unrecognized type. -/
theorem C1_deprecated_alias_masked :
    istype (some "single_choice") =
      (false, some "Error! The question type \x27single_choice\x27 is deprecated and has been replaced with \x27select\x27.") ∧
    construct (Value.str "q1")
      [("type", Value.str "single_choice"), ("question", Value.dict [("en", Value.str "Pick one")])] =
      Except.error (PyError.keyError (some "single_choice")) ∧
    construct (Value.str "q1")
      [("type", Value.str "unheard-of"), ("question", Value.dict [("en", Value.str "Pick one")])] =
      Except.error (PyError.keyError (some "unheard-of")) :=
  ⟨rfl, rfl, rfl⟩

/-- Claim C2 (code_bug evidence). The type "custom" is recognized by the type
validator, but it has no entry in `Question.__default_parameters`, so
`Question.getparameters("custom", None)` raises KeyError("custom") instead of
returning an empty mapping, and constructing a Question of type "custom" with
otherwise valid fields fails with that KeyError instead of succeeding. -/
theorem C2_custom_missing_from_table :
    istype (some "custom") = (true, Option.none) ∧
    getparameters (some "custom") Value.none =
      Except.error (PyError.keyError (some "custom")) ∧
    construct (Value.str "q1")
      [("type", Value.str "custom"), ("question", Value.dict [("en", Value.str "Hello")])] =
      Except.error (PyError.keyError (some "custom")) :=
  ⟨rfl, rfl, rfl⟩

/-- Claim C4 counterexample. In the initial heap the default prompt of
"dropdown-list" reads "Please select an option". Calling
`getparameters("dropdown-list", None)` twice and then mutating the nested
prompt through the first returned mapping (`result1["prompt"]["en"] = "CHANGED"`)
changes both the second returned mapping and the static default table: the
top-level `.copy()` shares the nested default i18n mapping, refuting the claim
that mutating any part of a returned mapping never changes the shared table or
the result of any other call. -/
theorem C4_shallow_copy_counterexample :
    hread3 initHeap 0 "dropdown-list" "prompt" "en" =
      some (HVal.str "Please select an option") ∧
    (c4final.map (fun p => hread2 p.fst p.snd "prompt" "en")) =
      some (some (HVal.str "CHANGED")) ∧
    (c4final.map (fun p => hread3 p.fst 0 "dropdown-list" "prompt" "en")) =
      some (some (HVal.str "CHANGED")) :=
  ⟨rfl, rfl, rfl⟩

/-- Claim C4, amended. Every call of `getparameters` returns a fresh top-level
mapping: a top-level mutation of one returned mapping (inserting or overwriting
a key) changes neither any other returned mapping nor any dictionary of the
original heap, the static default table included. The copy is shallow, however:
the returned mapping of "dropdown-list" holds its prompt entry as a reference to
the very heap cell (address 1) referenced by the static table, so nested
default values are shared rather than deep-copied. -/
theorem C4_shallow_copy_amended :
    (∀ (h : Heap) (t : String) (r1 : Addr) (h1 : Heap) (r2 : Addr) (h2 : Heap)
        (k : String) (v : HVal),
      hgetparameters h t = some (r1, h1) →
      hgetparameters h1 t = some (r2, h2) →
      r1 ≠ r2 ∧
      heapGet (hsetTop h2 r1 k v) r2 = heapGet h2 r2 ∧
      (∀ b, b ∈ h.map Prod.fst → heapGet (hsetTop h2 r1 k v) b = heapGet h b)) ∧
    (hgetparameters initHeap "dropdown-list" = some (16, c4h1) ∧
     heapGet initHeap 5 = some ddlDefaults ∧
     dictGet ddlDefaults "prompt" = some (HVal.ref 1)) := by
  constructor
  · intro h t r1 h1 r2 h2 k v hg1 hg2
    rcases hgetparameters_spec h t r1 h1 hg1 with ⟨hr1, d1, hh1⟩
    rcases hgetparameters_spec h1 t r2 h2 hg2 with ⟨hr2, d2, hh2⟩
    have hr1mem : r1 ∈ h1.map Prod.fst := by
      rw [hh1, List.map_append]
      exact List.mem_append_right _ (by simp)
    have hlt : r1 < r2 := by
      rw [hr2]
      exact mem_lt_freshAddr h1 r1 hr1mem
    have hne : r1 ≠ r2 := Nat.ne_of_lt hlt
    refine ⟨hne, ?_, ?_⟩
    · unfold hsetTop
      cases hd : heapGet h2 r1 with
      | none => rfl
      | some dd => exact heapGet_heapSet_ne h2 r1 r2 (dictSet dd k v) (Ne.symm hne)
    · intro b hb
      have hblt : b < freshAddr h := mem_lt_freshAddr h b hb
      have hbr1 : b ≠ r1 := by
        intro heq
        rw [heq, hr1] at hblt
        exact Nat.lt_irrefl _ hblt
      rcases heapGet_exists_of_mem h b hb with ⟨db, hdb⟩
      have hb1 : heapGet h1 b = some db := by
        rw [hh1]
        exact heapGet_append_left h _ b db hdb
      have hb2 : heapGet h2 b = some db := by
        rw [hh2]
        exact heapGet_append_left h1 _ b db hb1
      unfold hsetTop
      cases hd : heapGet h2 r1 with
      | none => rw [hb2, hdb]
      | some dd =>
        rw [heapGet_heapSet_ne h2 r1 b (dictSet dd k v) hbr1, hb2, hdb]
  · exact ⟨rfl, rfl, rfl⟩

/-- Witness for the amended claim C4, at the concrete input of the claim:
two calls on the initial heap (fresh cells 16 and 17) and a top-level mutation
`result1["size"] = 99` leave the second returned mapping and every dictionary of
the initial heap unchanged. -/
theorem C4_shallow_copy_amended_witness :
    (16 : Addr) ≠ 17 ∧
    heapGet (hsetTop c4h2 16 "size" (HVal.int 99)) 17 = heapGet c4h2 17 ∧
    (∀ b, b ∈ initHeap.map Prod.fst →
      heapGet (hsetTop c4h2 16 "size" (HVal.int 99)) b = heapGet initHeap b) :=
  C4_shallow_copy_amended.1 initHeap "dropdown-list" 16 c4h1 17 c4h2 "size"
    (HVal.int 99) rfl rfl

/-- Claim C3 counterexample. An entry with both an illegal key ("bad key!"
contains whitespace and punctuation) and an unrecognized type ("nonsense") does
not report the key error: construction fails with the KeyError raised by
parameter resolution before any validator runs. -/
theorem C3_validation_order_counterexample :
    construct (Value.str "bad key!")
      [("type", Value.str "nonsense"), ("question", Value.dict [("en", Value.str "x")])] =
      Except.error (PyError.keyError (some "nonsense")) :=
  rfl

/-- Claim C3, amended. When the trimmed type of the raw entry is not a key of
the default-parameter table, construction fails with a KeyError raised by
parameter resolution before any validator runs — whatever other rules the entry
violates. When the type is a table key and exactly one of the five validation
rules is violated, construction fails with the message of that rule. (The
source consumes the five checks from a Python dictionary keyed by function
objects, whose iteration order is implementation-defined, and stops at the
first failure, so no fixed key-type-question-hint-parameters order exists and
the remaining checks are not computed.) -/
theorem C3_validation_order_amended :
    (∀ (key : Value) (e : List (String × Value)),
      tableLookup (entryType e) = Option.none →
      construct key e = Except.error (PyError.keyError (entryType e))) ∧
    (∀ (key : Value) (e ps : List (String × Value)) (r : Bool × Option String),
      getparameters (entryType e) (rawfield "parameters" e) = Except.ok ps →
      r ∈ validations (mkQuestion key e ps) →
      r.fst = false →
      (∀ x ∈ validations (mkQuestion key e ps), x.fst = false → x = r) →
      construct key e = Except.error (PyError.exception (r.snd.getD ""))) := by
  constructor
  · intro key e h
    unfold construct getparameters
    rw [h]
  · intro key e ps r hgp hmem hfalse huniq
    have hpr : (!r.fst) = true := by
      rw [hfalse]
      rfl
    have hfind : (validations (mkQuestion key e ps)).find? (fun x => !x.fst) = some r := by
      apply find_unique _ _ r hmem hpr
      intro x hx hpx
      apply huniq x hx
      cases hxf : x.fst
      · rfl
      · rw [hxf] at hpx
        exact absurd hpx (by decide)
    have hiv : isvalid (mkQuestion key e ps) = r := by
      unfold isvalid
      rw [hfind]
    unfold construct
    rw [hgp]
    show (match isvalid (mkQuestion key e ps) with
          | (true, _) => Except.ok (mkQuestion key e ps)
          | (false, message) => Except.error (PyError.exception (message.getD ""))) =
        Except.error (PyError.exception (r.snd.getD ""))
    rw [hiv]
    obtain ⟨rb, rmsg⟩ := r
    have hrb : rb = false := hfalse
    subst hrb
    rfl

/-- Witness for the amended claim C3: an entry of recognized type "select" whose
only violated rule is key validity (the reserved key "end") fails with the
reserved-key message of the key validator. -/
theorem C3_validation_order_amended_witness :
    construct (Value.str "end")
      [("type", Value.str "select"), ("question", Value.dict [("en", Value.str "Pick one")])] =
      Except.error (PyError.exception "Error! The string \x27end\x27 is reserved for internal use and can not be used as a question key.") :=
  C3_validation_order_amended.2 (Value.str "end")
    [("type", Value.str "select"), ("question", Value.dict [("en", Value.str "Pick one")])]
    [("options", Value.none), ("size", Value.int 8)]
    (false, some "Error! The string \x27end\x27 is reserved for internal use and can not be used as a question key.")
    rfl (by decide) rfl (by decide)

/-- Claim C5 counterexample. A raw entry with no question field at all (and an
otherwise valid key and type) constructs successfully, with a None question:
`entry.get("question")` yields None, the i18n normalizer keeps it None, and the
i18n validator treats None as vacuously valid — construction does not fail. -/
theorem C5_absent_question_counterexample :
    construct (Value.str "q1") [("type", Value.str "select")] =
      Except.ok { key := Value.str "q1", type := some "select",
                  question := Value.none, hint := Value.none,
                  parameters := [("options", Value.none), ("size", Value.int 8)] } :=
  rfl

/-- Claim C5, amended. The question field is not required: for every raw entry
with no question field whose key, type, hint and parameters are otherwise
valid, construction succeeds and the constructed Question has a None question —
the absent field passes question validation vacuously. -/
theorem C5_absent_question_amended :
    ∀ (key : Value) (e base : List (String × Value)),
      alookup "question" e = Option.none →
      (iskey key).fst = true →
      istype (entryType e) = (true, Option.none) →
      tableLookup (entryType e) = some base →
      rawfield "parameters" e = Value.none →
      ishint (i18nify (rawfield "hint" e)) = (true, Option.none) →
      construct key e = Except.ok (mkQuestion key e base) ∧
        (mkQuestion key e base).question = Value.none := by
  intro key e base hq hk ht htab hpar hhint
  have hraw : rawfield "question" e = Value.none := by
    unfold rawfield
    rw [hq]
    rfl
  have hquestion : (mkQuestion key e base).question = Value.none := by
    show i18nify (rawfield "question" e) = Value.none
    rw [hraw]
    rfl
  have hgp : getparameters (entryType e) (rawfield "parameters" e) = Except.ok base := by
    unfold getparameters
    rw [htab, hpar]
  have hfind : (validations (mkQuestion key e base)).find? (fun r => !r.fst) = Option.none := by
    rw [List.find?_eq_none]
    intro x hx
    have hx2 : x = iskey key ∨ x = istype (entryType e) ∨
        x = isquestion (i18nify (rawfield "question" e)) ∨
        x = ishint (i18nify (rawfield "hint" e)) ∨
        x = isparameters (Value.dict base) := by
      simpa [validations, mkQuestion] using hx
    rcases hx2 with rfl | rfl | rfl | rfl | rfl
    · rw [Bool.not_eq_true, hk]
      rfl
    · rw [ht]
      decide
    · rw [hraw]
      decide
    · rw [hhint]
      decide
    · show ¬ (!(true : Bool)) = true
      decide
  have hiv : isvalid (mkQuestion key e base) = (true, Option.none) := by
    unfold isvalid
    rw [hfind]
  refine ⟨?_, hquestion⟩
  unfold construct
  rw [hgp]
  show (match isvalid (mkQuestion key e base) with
        | (true, _) => Except.ok (mkQuestion key e base)
        | (false, message) => Except.error (PyError.exception (message.getD ""))) =
      Except.ok (mkQuestion key e base)
  rw [hiv]

/-- Witness for the amended claim C5, at the concrete input of the
counterexample: an entry holding only the type "select". -/
theorem C5_absent_question_amended_witness :
    construct (Value.str "q1") [("type", Value.str "select")] =
      Except.ok (mkQuestion (Value.str "q1") [("type", Value.str "select")]
        [("options", Value.none), ("size", Value.int 8)]) ∧
      (mkQuestion (Value.str "q1") [("type", Value.str "select")]
        [("options", Value.none), ("size", Value.int 8)]).question = Value.none :=
  C5_absent_question_amended (Value.str "q1") [("type", Value.str "select")]
    [("options", Value.none), ("size", Value.int 8)] rfl rfl rfl rfl rfl rfl

/-- Claim C6. `getparameters` merges the user-supplied parameters over the
defaults of the type: for "text", the override 64 replaces the default
maxlength 128 while the untouched placeholder default stays, and a None-valued
override is ignored, keeping the default 128. The third conjunct states the
general null-ignoring rule: a user dictionary all of whose values are None
leaves the default mapping unchanged. -/
theorem C6_parameter_merge :
    getparameters (some "text") (Value.dict [("maxlength", Value.int 64)]) =
      Except.ok [("placeholder", Value.none), ("maxlength", Value.int 64)] ∧
    getparameters (some "text") (Value.dict [("maxlength", Value.none)]) =
      Except.ok [("placeholder", Value.none), ("maxlength", Value.int 128)] ∧
    (∀ (base u : List (String × Value)), (∀ p ∈ u, p.snd.isNone = true) →
      applyDefaultsList base u = base) :=
  ⟨rfl, rfl, fun base u h => applyDefaults_all_none u base h⟩

/-- Witness for claim C6, applying the general null-ignoring conjunct at a
concrete user dictionary with one None-valued entry. -/
theorem C6_parameter_merge_witness :
    applyDefaultsList [("placeholder", Value.none), ("maxlength", Value.int 128)]
      [("maxlength", Value.none)] =
      [("placeholder", Value.none), ("maxlength", Value.int 128)] :=
  C6_parameter_merge.2.2 [("placeholder", Value.none), ("maxlength", Value.int 128)]
    [("maxlength", Value.none)]
    (fun p hp => by rw [List.mem_singleton.mp hp]; rfl)

/-- Claim C7. Characterization of the key validator: a value passes `iskey`
exactly when it is a string that is non-empty, made only of characters of the
class of `[\w-]` (ASCII letters, digits, underscore, hyphen — in particular no
whitespace), and not one of the reserved keys. Every non-string value, empty
string, string with a character outside the class, and reserved key fails. -/
theorem C7_iskey_characterization (v : Value) :
    (iskey v).fst = true ↔
      ∃ s, v = Value.str s ∧ s ≠ "" ∧ s.data.all iswordchar = true ∧
        isreservedkey s = false := by
  cases v with
  | str s =>
    simp only [iskey]
    constructor
    · intro h
      by_cases h1 : s.length < 1
      · rw [if_pos h1] at h
        exact absurd h (by simp)
      · rw [if_neg h1] at h
        by_cases h2 : (regexMatchGroup s != s) = true
        · rw [if_pos h2] at h
          exact absurd h (by simp)
        · rw [if_neg h2] at h
          by_cases h3 : isreservedkey s = true
          · rw [if_pos h3] at h
            exact absurd h (by simp)
          · refine ⟨s, rfl, ?_, ?_, ?_⟩
            · intro he
              exact h1 ((string_length_lt_one_iff s).mpr he)
            · have hEq : regexMatchGroup s = s := by
                have h4 : ¬ regexMatchGroup s ≠ s := fun hne => h2 (bne_iff_ne.mpr hne)
                exact not_not.mp h4
              exact (regexMatchGroup_eq_self_iff s).mp hEq
            · exact Bool.not_eq_true _ |>.mp h3
    · rintro ⟨s2, hs2, hne, hall, hres⟩
      injection hs2 with hss
      subst hss
      have h1 : ¬ s.length < 1 := fun h => hne ((string_length_lt_one_iff s).mp h)
      have h2 : ¬ (regexMatchGroup s != s) = true := by
        rw [bne_iff_ne]
        intro hh
        exact hh ((regexMatchGroup_eq_self_iff s).mpr hall)
      have h3 : ¬ isreservedkey s = true := by
        rw [hres]
        exact Bool.false_ne_true
      rw [if_neg h1, if_neg h2, if_neg h3]
  | none =>
    constructor
    · intro h
      exact absurd h (by simp [iskey])
    · rintro ⟨s, hs, h2⟩
      exact Value.noConfusion hs
  | int n =>
    constructor
    · intro h
      exact absurd h (by simp [iskey])
    · rintro ⟨s, hs, h2⟩
      exact Value.noConfusion hs
  | bool b =>
    constructor
    · intro h
      exact absurd h (by simp [iskey])
    · rintro ⟨s, hs, h2⟩
      exact Value.noConfusion hs
  | list xs =>
    constructor
    · intro h
      exact absurd h (by simp [iskey])
    · rintro ⟨s, hs, h2⟩
      exact Value.noConfusion hs
  | dict xs =>
    constructor
    · intro h
      exact absurd h (by simp [iskey])
    · rintro ⟨s, hs, h2⟩
      exact Value.noConfusion hs

/-- Witness for claim C7, applying the characterization at the concrete valid
key "a-B_9" and reading back that the key validator accepts it. -/
theorem C7_iskey_witness : (iskey (Value.str "a-B_9")).fst = true :=
  (C7_iskey_characterization (Value.str "a-B_9")).mpr
    ⟨"a-B_9", rfl, by decide, by decide, rfl⟩

/-- Claim C8. The type validator accepts every member of the recognized type
list; each of the five deprecated aliases fails with the message naming its
specific replacement; and every string that is neither recognized nor a
deprecated alias fails with the generic not-recognized message. -/
theorem C8_istype_messages :
    (types.all (fun t => (istype (some t)).fst)) = true ∧
    istype (some "single_choice") =
      (false, some "Error! The question type \x27single_choice\x27 is deprecated and has been replaced with \x27select\x27.") ∧
    istype (some "multiple_choice") =
      (false, some "Error! The question type \x27multiple_choice\x27 is deprecated and has been replaced with \x27checklist\x27.") ∧
    istype (some "illustrated_multiple_choice") =
      (false, some "Error! The question type \x27illustrated_multiple_choice\x27 is deprecated and has been replaced with \x27illustrative-checklist\x27.") ∧
    istype (some "textinput") =
      (false, some "Error! The question type \x27textinput\x27 is deprecated and has been replaced with \x27text\x27.") ∧
    istype (some "textarea") =
      (false, some "Error! The question type \x27textarea\x27 is deprecated and has been replaced with \x27longtext\x27.") ∧
    (∀ s : String, types.contains s = false → alookup s deprecated = Option.none →
      istype (some s) =
        (false, some ("Error! The question type \x27" ++ s ++ "\x27 is not recognized."))) := by
  refine ⟨rfl, rfl, rfl, rfl, rfl, rfl, ?_⟩
  intro s h1 h2
  have h1m : s ∉ types := by simpa using h1
  simp [istype, optMem, optLookup, pyformat, h1, h2, h1m]

/-- Witness for claim C8, applying the generic-message conjunct at the concrete
unrecognized, non-deprecated string "foo". -/
theorem C8_istype_witness :
    istype (some "foo") =
      (false, some ("Error! The question type \x27" ++ "foo" ++ "\x27 is not recognized.")) :=
  C8_istype_messages.2.2.2.2.2.2 "foo" rfl rfl

/-- Claim C9 (settled against the spec-modelled isi18nified, since src/i18n.py
is not among the available sources). The question validator — isi18nified with
the non-empty-string item validator — accepts None (an absent field is
vacuously valid) and accepts every mapping whose values are strings that are
non-empty after stripping; it rejects a mapping holding an empty string, any
non-mapping shape such as a list, and a mapping with a non-string value. -/
theorem C9_isquestion_i18n :
    isquestion Value.none = (true, Option.none) ∧
    isquestion (Value.dict [("en", Value.str "Hello")]) = (true, Option.none) ∧
    isquestion (Value.dict [("en", Value.str "")]) =
      (false, some "Error! The string must not be empty!") ∧
    (isquestion (Value.list [Value.str "Hello"])).fst = false ∧
    isquestion (Value.dict [("en", Value.int 5)]) =
      (false, some "Error! The input must be a StringType or UnicodeType.") ∧
    (∀ m : List (String × Value),
      (∀ p ∈ m, ∃ s, p.snd = Value.str s ∧ (pystrip s).length ≠ 0) →
      isquestion (Value.dict m) = (true, Option.none)) := by
  refine ⟨rfl, rfl, rfl, rfl, rfl, ?_⟩
  intro m h
  simp only [isquestion, isi18nified]
  have hfind : m.find? (fun e => !(isvalidString e.snd).fst) = Option.none := by
    rw [List.find?_eq_none]
    intro p hp
    rcases h p hp with ⟨s, hs, hlen⟩
    have hb : ¬ (((pystrip s).length == 0) = true) := by
      rw [Nat.beq_eq_true_eq]
      exact hlen
    rw [hs]
    simp only [isvalidString]
    rw [if_neg hb]
    decide
  rw [hfind]

/-- Witness for claim C9, applying the general acceptance conjunct at the
concrete one-entry mapping whose value is the non-blank string "Hi". -/
theorem C9_isquestion_witness :
    isquestion (Value.dict [("en", Value.str "Hi")]) = (true, Option.none) :=
  C9_isquestion_i18n.2.2.2.2.2 [("en", Value.str "Hi")]
    (fun p hp => by
      rw [List.mem_singleton.mp hp]
      exact ⟨"Hi", rfl, by decide⟩)

/-- Claim C10. The parameters validator accepts None and every dictionary
whatsoever, with no check of parameter names or values against the defaults of
the type; and every user-supplied parameter entry with a non-None value —
including keys absent from the default set of the type — is inserted verbatim
into the parameters of the constructed Question. -/
theorem C10_parameters_passthrough :
    isparameters Value.none = (true, Option.none) ∧
    (∀ xs : List (String × Value), isparameters (Value.dict xs) = (true, Option.none)) ∧
    (∀ (key : Value) (e u : List (String × Value)) (q : Question) (pk : String) (pv : Value),
      construct key e = Except.ok q →
      rawfield "parameters" e = Value.dict u →
      (u.map Prod.fst).Nodup →
      (pk, pv) ∈ u →
      pv.isNone = false →
      alookup pk q.parameters = some pv) := by
  refine ⟨rfl, fun xs => rfl, ?_⟩
  intro key e u q pk pv hc hraw hnd hmem hpv
  unfold construct at hc
  cases hgp : getparameters (entryType e) (rawfield "parameters" e) with
  | error err =>
    rw [hgp] at hc
    exact absurd hc (by simp)
  | ok ps =>
    rw [hgp] at hc
    have hq : q.parameters = ps := by
      simp only [] at hc
      cases hiv : isvalid (mkQuestion key e ps) with
      | mk b msg =>
        rw [hiv] at hc
        cases b with
        | false => exact absurd hc (by simp)
        | true =>
          have hqq : mkQuestion key e ps = q := by
            injection hc
          rw [← hqq]
          rfl
    rw [hraw] at hgp
    unfold getparameters at hgp
    cases htab : tableLookup (entryType e) with
    | none =>
      rw [htab] at hgp
      exact absurd hgp (by simp)
    | some base =>
      rw [htab] at hgp
      have hps : applyDefaultsList base u = ps := by
        injection hgp
      rw [hq, ← hps]
      exact alookup_applyDefaults_mem u base pk pv hnd hmem hpv

/-- Witness for claim C10: constructing a "select" question whose user
parameters hold the key "zzz" — absent from the default set of "select" —
yields a Question whose parameters map "zzz" to the supplied value. -/
theorem C10_parameters_passthrough_witness :
    alookup "zzz"
      ({ key := Value.str "q1", type := some "select",
         question := Value.dict [("en", Value.str "Pick one")], hint := Value.none,
         parameters := [("options", Value.none), ("size", Value.int 8),
                        ("zzz", Value.str "v")] } : Question).parameters =
      some (Value.str "v") :=
  C10_parameters_passthrough.2.2 (Value.str "q1")
    [("type", Value.str "select"), ("question", Value.dict [("en", Value.str "Pick one")]),
     ("parameters", Value.dict [("zzz", Value.str "v")])]
    [("zzz", Value.str "v")]
    { key := Value.str "q1", type := some "select",
      question := Value.dict [("en", Value.str "Pick one")], hint := Value.none,
      parameters := [("options", Value.none), ("size", Value.int 8),
                     ("zzz", Value.str "v")] }
    "zzz" (Value.str "v") rfl rfl (List.nodup_singleton "zzz")
    (List.mem_singleton.mpr rfl) rfl

end GeotagX
